import Mathlib

/-
Verification of the FinderInfo binary codec: a shallow embedding of the
library's data model (OSType tag codes, Point/Rect geometry, FinderFlags and
ExtendedFinderFlags bitfields, LabelColor, and the four info structs composed
into the 32-byte FinderInfoFile / FinderInfoFolder records) together with its
big-endian read/write logic, and proofs of the specified properties.

Modelling conventions:
- a byte stream is a `List Nat` of byte values (each `< 256` where relevant);
- `u16` fields are `Nat`, `i16`/`i32` fields are `Int` in two's complement;
- a reader returns `Except IOErr (value × remaining bytes)`, mirroring the
  `io::Result` of the source, where the only decode-time error is
  end-of-input (`TruncatedInput`);
- a writer returns the `List Nat` of bytes it appends to the sink (the
  in-memory sink of the source never fails).
-/

/-- Decode-time error: end of input reached before a field got its bytes
(the `UnexpectedEof` / `TruncatedInput` error kind of the source). -/
inductive IOErr where
  | truncatedInput
  deriving DecidableEq, Repr

namespace constants

/-- Unused and reserved in System 7; set to 0. -/
def kIsOnDesk : Nat := 0x0001

/-- Three bits of color coding. -/
def kColor : Nat := 0x000e

/-- The file is an application that can be executed by multiple users simultaneously. -/
def kIsShared : Nat := 0x0040

/-- The file contains no INIT resources. -/
def kHasNoINITs : Nat := 0x0080

/-- The Finder has recorded information from the bundle resource. -/
def kHasBeenInited : Nat := 0x0100

/-- The file or directory contains a customized icon. -/
def kHasCustomIcon : Nat := 0x0400

/-- The file is a stationery pad. -/
def kIsStationery : Nat := 0x0800

/-- The file or directory cannot be renamed from the Finder. -/
def kNameLocked : Nat := 0x1000

/-- The file contains a bundle resource / the directory is a package. -/
def kHasBundle : Nat := 0x2000

/-- The file or directory is invisible from the Finder. -/
def kIsInvisible : Nat := 0x4000

/-- The file is an alias file. -/
def kIsAlias : Nat := 0x8000

/-- If set the other extended flags are ignored. -/
def kExtendedFlagsAreInvalid : Nat := 0x8000

/-- Set if the file or folder has a badge resource. -/
def kExtendedFlagHasCustomBadge : Nat := 0x0100

/-- Set if the file contains routing info resource. -/
def kExtendedFlagHasRoutingInfo : Nat := 0x0004

end constants

/-- Bitwise NOT on a `u16` value (the Rust `!` operator at type `u16`). -/
def u16Not (x : Nat) : Nat := x ^^^ 65535

/-- Two's-complement reading of a 16-bit unsigned value as an `i16`. -/
def toI16 (n : Nat) : Int := if n < 32768 then (n : Int) else (n : Int) - 65536

/-- Two's-complement reading of a 32-bit unsigned value as an `i32`. -/
def toI32 (n : Nat) : Int :=
  if n < 2147483648 then (n : Int) else (n : Int) - 4294967296

/-- Big-endian `read_u16`: consumes two bytes or fails at end of input. -/
def read_u16 : List Nat → Except IOErr (Nat × List Nat)
  | a :: b :: l => .ok (a * 256 + b, l)
  | _ => .error .truncatedInput

/-- Big-endian `write_u16`: the two bytes of the 16-bit value. -/
def write_u16 (v : Nat) : List Nat := [v / 256 % 256, v % 256]

/-- Big-endian `read_i16`: consumes two bytes or fails at end of input. -/
def read_i16 : List Nat → Except IOErr (Int × List Nat)
  | a :: b :: l => .ok (toI16 (a * 256 + b), l)
  | _ => .error .truncatedInput

/-- Big-endian `write_i16`: the two bytes of the value's 16-bit two's complement. -/
def write_i16 (v : Int) : List Nat :=
  [(v % 65536).toNat / 256, (v % 65536).toNat % 256]

/-- Big-endian `read_i32`: consumes four bytes or fails at end of input. -/
def read_i32 : List Nat → Except IOErr (Int × List Nat)
  | a :: b :: c :: d :: l => .ok (toI32 (((a * 256 + b) * 256 + c) * 256 + d), l)
  | _ => .error .truncatedInput

/-- Big-endian `write_i32`: the four bytes of the value's 32-bit two's complement. -/
def write_i32 (v : Int) : List Nat :=
  [(v % 4294967296).toNat / 16777216 % 256, (v % 4294967296).toNat / 65536 % 256,
    (v % 4294967296).toNat / 256 % 256, (v % 4294967296).toNat % 256]

/-- The `read_i16_into` call on a 4-element buffer: consumes eight bytes
(four big-endian `i16` values) or fails at end of input. -/
def read_i16_into4 : List Nat → Except IOErr (List Int × List Nat)
  | a :: b :: c :: d :: e :: f :: g :: k :: l =>
    .ok ([toI16 (a * 256 + b), toI16 (c * 256 + d), toI16 (e * 256 + f),
      toI16 (g * 256 + k)], l)
  | _ => .error .truncatedInput

/-- An opaque 4-byte type/creator identifier (`pub struct OSType(pub [u8; 4])`). -/
structure OSType where
  bytes : List Nat
  deriving DecidableEq, Repr

/-- The `r.read(&mut buf)` call on a zero-initialized 4-byte buffer against an
in-memory cursor: copies `min 4 remaining` bytes into the front of the buffer,
leaves the rest of the buffer zero, and never fails. -/
def readOSType (l : List Nat) : List Nat × List Nat :=
  (l.take 4 ++ List.replicate (4 - (l.take 4).length) 0, l.drop 4)

/-- The `w.write(&self.0)` call: appends the four tag bytes to the sink. -/
def OSType.write (t : OSType) : List Nat := t.bytes

/-- Default `OSType`: four zero bytes. -/
def OSType.default : OSType := ⟨[0, 0, 0, 0]⟩

/-- Well-formedness of an `OSType` as a `[u8; 4]`: four bytes, each below 256. -/
def OSType.WF (t : OSType) : Prop := t.bytes.length = 4 ∧ ∀ x ∈ t.bytes, x < 256

instance (t : OSType) : Decidable t.WF := by unfold OSType.WF; infer_instance

/-- The closed label-color enumeration. -/
inductive LabelColor where
  | Gray
  | Green
  | Purple
  | Blue
  | Yellow
  | Red
  | Orange
  deriving DecidableEq, Repr

/-- `LabelColor::from_u8`: the seven valid 3-bit sub-field codes; anything else
is no color. -/
def LabelColor.from_u8 (b : Nat) : Option LabelColor :=
  match b with
  | 0x02 => some .Gray
  | 0x04 => some .Green
  | 0x06 => some .Purple
  | 0x08 => some .Blue
  | 0x0a => some .Yellow
  | 0x0c => some .Red
  | 0x0e => some .Orange
  | _ => none

/-- `LabelColor::to_u8`: a color's 3-bit sub-field code, `None` mapping to 0. -/
def LabelColor.to_u8 (c : Option LabelColor) : Nat :=
  match c with
  | none => 0x00
  | some .Gray => 0x02
  | some .Green => 0x04
  | some .Purple => 0x06
  | some .Blue => 0x08
  | some .Yellow => 0x0a
  | some .Red => 0x0c
  | some .Orange => 0x0e

/-- `LabelColor::to_str` (also the string the derived Debug rendering prints). -/
def LabelColor.to_str (c : LabelColor) : String :=
  match c with
  | .Gray => "Gray"
  | .Green => "Green"
  | .Purple => "Purple"
  | .Blue => "Blue"
  | .Yellow => "Yellow"
  | .Red => "Red"
  | .Orange => "Orange"

/-- The 16-bit Finder flags bitfield (`pub struct FinderFlags(u16)`). -/
structure FinderFlags where
  raw : Nat
  deriving DecidableEq, Repr

/-- `FinderFlags::color`: decode the 3-bit color sub-field. -/
def FinderFlags.color (f : FinderFlags) : Option LabelColor :=
  LabelColor.from_u8 (f.raw &&& constants.kColor)

/-- `FinderFlags::set_color`: clear the color sub-field, then OR in the code. -/
def FinderFlags.set_color (f : FinderFlags) (color : Option LabelColor) : FinderFlags :=
  ⟨(f.raw &&& u16Not constants.kColor) ||| LabelColor.to_u8 color⟩

/-- `FinderFlags::is_shared`. -/
def FinderFlags.is_shared (f : FinderFlags) : Bool :=
  f.raw &&& constants.kIsShared != 0

/-- `FinderFlags::has_no_inits`. -/
def FinderFlags.has_no_inits (f : FinderFlags) : Bool :=
  f.raw &&& constants.kHasNoINITs != 0

/-- `FinderFlags::has_been_inited`. -/
def FinderFlags.has_been_inited (f : FinderFlags) : Bool :=
  f.raw &&& constants.kHasBeenInited != 0

/-- `FinderFlags::has_custom_icon`. -/
def FinderFlags.has_custom_icon (f : FinderFlags) : Bool :=
  f.raw &&& constants.kHasCustomIcon != 0

/-- `FinderFlags::set_has_custom_icon`: set or clear bit 0x0400. -/
def FinderFlags.set_has_custom_icon (f : FinderFlags) (value : Bool) : FinderFlags :=
  if value then ⟨f.raw ||| constants.kHasCustomIcon⟩
  else ⟨f.raw &&& u16Not constants.kHasCustomIcon⟩

/-- `FinderFlags::is_stationery`. -/
def FinderFlags.is_stationery (f : FinderFlags) : Bool :=
  f.raw &&& constants.kIsStationery != 0

/-- `FinderFlags::name_locked`. -/
def FinderFlags.name_locked (f : FinderFlags) : Bool :=
  f.raw &&& constants.kNameLocked != 0

/-- `FinderFlags::has_bundle`. -/
def FinderFlags.has_bundle (f : FinderFlags) : Bool :=
  f.raw &&& constants.kHasBundle != 0

/-- `FinderFlags::is_invisible`. -/
def FinderFlags.is_invisible (f : FinderFlags) : Bool :=
  f.raw &&& constants.kIsInvisible != 0

/-- `FinderFlags::is_alias`. -/
def FinderFlags.is_alias (f : FinderFlags) : Bool :=
  f.raw &&& constants.kIsAlias != 0

/-- `impl From<u16> for FinderFlags`. -/
def FinderFlags.fromU16 (s : Nat) : FinderFlags := ⟨s⟩

/-- `impl From<FinderFlags> for u16`. -/
def FinderFlags.toU16 (f : FinderFlags) : Nat := f.raw

/-- The `flags` name list built by the `fmt::Debug` impl of `FinderFlags`:
the color name if a color is present, then each set boolean flag's name, in
the source's fixed order. -/
def FinderFlags.debugFlagNames (f : FinderFlags) : List String :=
  (match f.color with
  | some color => [LabelColor.to_str color]
  | none => []) ++
  (if f.is_shared then ["kIsShared"] else []) ++
  (if f.has_no_inits then ["kHasNoINITs"] else []) ++
  (if f.has_been_inited then ["kHasBeenInited"] else []) ++
  (if f.has_custom_icon then ["kHasCustomIcon"] else []) ++
  (if f.is_stationery then ["kIsStationery"] else []) ++
  (if f.name_locked then ["kNameLocked"] else []) ++
  (if f.has_bundle then ["kHasBundle"] else []) ++
  (if f.is_invisible then ["kIsInvisible"] else []) ++
  (if f.is_alias then ["kIsAlias"] else [])

/-- The 16-bit extended Finder flags bitfield (`pub struct ExtendedFinderFlags(u16)`). -/
structure ExtendedFinderFlags where
  raw : Nat
  deriving DecidableEq, Repr

/-- `ExtendedFinderFlags::are_invalid`. -/
def ExtendedFinderFlags.are_invalid (f : ExtendedFinderFlags) : Bool :=
  f.raw &&& constants.kExtendedFlagsAreInvalid != 0

/-- `ExtendedFinderFlags::has_custom_badge`. -/
def ExtendedFinderFlags.has_custom_badge (f : ExtendedFinderFlags) : Bool :=
  f.raw &&& constants.kExtendedFlagHasCustomBadge != 0

/-- `ExtendedFinderFlags::has_routing_info`. -/
def ExtendedFinderFlags.has_routing_info (f : ExtendedFinderFlags) : Bool :=
  f.raw &&& constants.kExtendedFlagHasRoutingInfo != 0

/-- `impl From<u16> for ExtendedFinderFlags`. -/
def ExtendedFinderFlags.fromU16 (s : Nat) : ExtendedFinderFlags := ⟨s⟩

/-- `impl From<ExtendedFinderFlags> for u16`. -/
def ExtendedFinderFlags.toU16 (f : ExtendedFinderFlags) : Nat := f.raw

/-- The `flags` name list built by the `fmt::Debug` impl of
`ExtendedFinderFlags`, exactly as the source writes it: note that the
`has_routing_info` branch pushes the string "kExtendedFlagHasCustomBadge"
again (a copy-paste slip in the source). -/
def ExtendedFinderFlags.debugFlagNames (f : ExtendedFinderFlags) : List String :=
  (if f.are_invalid then ["kExtendedFlagsAreInvalid"] else []) ++
  (if f.has_custom_badge then ["kExtendedFlagHasCustomBadge"] else []) ++
  (if f.has_routing_info then ["kExtendedFlagHasCustomBadge"] else [])

set_option maxRecDepth 2048 in
/-- C6: every named color code round-trips through `to_u8` then `from_u8`;
`from_u8 0` is `None`; `to_u8 None` is 0; every byte value outside the seven
valid color codes decodes to `None`. -/
theorem C6_color_roundtrip :
    (∀ c : LabelColor, LabelColor.from_u8 (LabelColor.to_u8 (some c)) = some c)
    ∧ LabelColor.from_u8 0 = none
    ∧ LabelColor.to_u8 none = 0
    ∧ ∀ b : Nat, b < 256 →
        ¬ (b = 2 ∨ b = 4 ∨ b = 6 ∨ b = 8 ∨ b = 10 ∨ b = 12 ∨ b = 14) →
        LabelColor.from_u8 b = none := by
  refine ⟨fun c => by cases c <;> rfl, rfl, rfl, ?_⟩
  decide

/-- Witness for C6: the round-trip at the color Blue, and `from_u8` at the
invalid (odd) byte value 7. -/
theorem C6_color_roundtrip_witness :
    LabelColor.from_u8 (LabelColor.to_u8 (some LabelColor.Blue)) = some LabelColor.Blue
    ∧ (7 : Nat) < 256 ∧ LabelColor.from_u8 7 = none :=
  ⟨C6_color_roundtrip.1 LabelColor.Blue, by decide,
    C6_color_roundtrip.2.2.2 7 (by decide) (by decide)⟩

/-- C7: converting a 16-bit value into `FinderFlags` and back to `u16` is the
identity, and likewise for `ExtendedFinderFlags`. -/
theorem C7_flags_from_into_identity (x y : Nat) (hx : x < 65536) (hy : y < 65536) :
    FinderFlags.toU16 (FinderFlags.fromU16 x) = x
    ∧ ExtendedFinderFlags.toU16 (ExtendedFinderFlags.fromU16 y) = y :=
  ⟨rfl, rfl⟩

/-- Witness for C7: the raw-value identities at 0x1234 and 0xabcd. -/
theorem C7_flags_from_into_identity_witness :
    (4660 : Nat) < 65536 ∧ (43981 : Nat) < 65536
    ∧ FinderFlags.toU16 (FinderFlags.fromU16 4660) = 4660
    ∧ ExtendedFinderFlags.toU16 (ExtendedFinderFlags.fromU16 43981) = 43981 :=
  ⟨by decide, by decide,
    (C7_flags_from_into_identity 4660 43981 (by decide) (by decide)).1,
    (C7_flags_from_into_identity 4660 43981 (by decide) (by decide)).2⟩

/-- Bits at positions 16 and above of a `u16` value are clear. -/
lemma testBit_high_false {m i : Nat} (hm : m < 65536) (hi : 16 ≤ i) :
    Nat.testBit m i = false := by
  apply Nat.testBit_lt_two_pow
  calc m < 65536 := hm
    _ = 2 ^ 16 := by norm_num
    _ ≤ 2 ^ i := Nat.pow_le_pow_right (by norm_num) hi

/-- A set bit of a `u16` value lies below position 16. -/
lemma testBit_in_low {m i : Nat} (hm : m < 65536) (h : Nat.testBit m i = true) :
    i < 16 := by
  by_contra hc
  push_neg at hc
  rw [testBit_high_false hm hc] at h
  exact Bool.noConfusion h

/-- All 16 low bits of 0xffff are set. -/
lemma testBit_65535_low {i : Nat} (hi : i < 16) : Nat.testBit 65535 i = true := by
  have h2 := Nat.testBit_two_pow_sub_one 16 i
  norm_num at h2
  simp [h2, hi]

/-- A value that is fixed by masking with `m` has set bits only where `m` does. -/
lemma testBit_land_self_imp {v m i : Nat} (h : v &&& m = v)
    (hv : Nat.testBit v i = true) : Nat.testBit m i = true := by
  have h2 := congrArg (fun x => Nat.testBit x i) h
  simp only [Nat.testBit_land] at h2
  rw [hv] at h2
  simpa using h2.symm

/-- Clearing a 16-bit mask and OR-ing in a submask value leaves the bits off
the mask unchanged. -/
lemma land_lor_mask_off (f m v : Nat) (hm : m < 65536) (hv : v &&& m = v) :
    ((f &&& u16Not m) ||| v) &&& u16Not m = f &&& u16Not m := by
  apply Nat.eq_of_testBit_eq
  intro i
  simp only [u16Not, Nat.testBit_land, Nat.testBit_lor, Nat.testBit_xor]
  cases hM : Nat.testBit m i with
  | true =>
    have hT := testBit_65535_low (testBit_in_low hm hM)
    simp [hT]
  | false =>
    have hV : Nat.testBit v i = false := by
      cases hV : Nat.testBit v i
      · rfl
      · rw [testBit_land_self_imp hv hV] at hM
        exact Bool.noConfusion hM
    cases hT : Nat.testBit 65535 i <;> cases hA : Nat.testBit f i <;>
      simp [hM, hV, hT, hA]

/-- Clearing a 16-bit mask and OR-ing in a submask value makes the bits
under the mask exactly that value. -/
lemma land_lor_mask_on (f m v : Nat) (hm : m < 65536) (hv : v &&& m = v) :
    ((f &&& u16Not m) ||| v) &&& m = v := by
  apply Nat.eq_of_testBit_eq
  intro i
  simp only [u16Not, Nat.testBit_land, Nat.testBit_lor, Nat.testBit_xor]
  cases hM : Nat.testBit m i with
  | true =>
    have hT := testBit_65535_low (testBit_in_low hm hM)
    simp [hT]
  | false =>
    have hV : Nat.testBit v i = false := by
      cases hV : Nat.testBit v i
      · rfl
      · rw [testBit_land_self_imp hv hV] at hM
        exact Bool.noConfusion hM
    simp [hV]

/-- OR-ing in a 16-bit mask leaves the bits off the mask unchanged. -/
lemma lor_mask_off (f m : Nat) (hm : m < 65536) :
    (f ||| m) &&& u16Not m = f &&& u16Not m := by
  apply Nat.eq_of_testBit_eq
  intro i
  simp only [u16Not, Nat.testBit_land, Nat.testBit_lor, Nat.testBit_xor]
  cases hM : Nat.testBit m i with
  | true =>
    have hT := testBit_65535_low (testBit_in_low hm hM)
    simp [hT]
  | false =>
    simp

/-- OR-ing in a mask disjoint from `m2` leaves the bits under `m2` unchanged. -/
lemma lor_disjoint (f m m2 : Nat) (hd : m &&& m2 = 0) :
    (f ||| m) &&& m2 = f &&& m2 := by
  apply Nat.eq_of_testBit_eq
  intro i
  have hMM : Nat.testBit m i = true → Nat.testBit m2 i = false := by
    have h2 := congrArg (fun x => Nat.testBit x i) hd
    simpa [Nat.testBit_land] using h2
  simp only [Nat.testBit_land, Nat.testBit_lor]
  cases hM : Nat.testBit m i with
  | true =>
    simp [hMM hM]
  | false =>
    simp

/-- Clearing a 16-bit mask disjoint from `m2` leaves the bits under `m2`
unchanged. -/
lemma land_not_disjoint (f m m2 : Nat) (hm2 : m2 < 65536) (hd : m &&& m2 = 0) :
    (f &&& u16Not m) &&& m2 = f &&& m2 := by
  apply Nat.eq_of_testBit_eq
  intro i
  have hMM : Nat.testBit m i = true → Nat.testBit m2 i = false := by
    have h2 := congrArg (fun x => Nat.testBit x i) hd
    simpa [Nat.testBit_land] using h2
  simp only [u16Not, Nat.testBit_land, Nat.testBit_xor]
  cases hM2 : Nat.testBit m2 i with
  | true =>
    have hT := testBit_65535_low (testBit_in_low hm2 hM2)
    have hM : Nat.testBit m i = false := by
      cases hMc : Nat.testBit m i
      · rfl
      · rw [hMM hMc] at hM2
        exact Bool.noConfusion hM2
    simp [hT, hM]
  | false =>
    simp

/-- Masking twice with the complement of a mask is the same as masking once. -/
lemma land_not_idem (f m : Nat) :
    (f &&& u16Not m) &&& u16Not m = f &&& u16Not m := by
  apply Nat.eq_of_testBit_eq
  intro i
  simp only [Nat.testBit_land]
  cases hX : Nat.testBit (u16Not m) i <;> simp [hX]

/-- C5: `set_color` changes only the 3-bit color sub-field (mask 0x000e) of a
16-bit flag value, setting it to the new color's code and leaving every other
bit unchanged; `set_has_custom_icon` changes only bit 0x0400, leaving all
other bits, the color sub-field in particular, unchanged. -/
theorem C5_setters_touch_only_their_bits (f : Nat) (hf : f < 65536)
    (c : Option LabelColor) (b : Bool) :
    ((FinderFlags.set_color ⟨f⟩ c).raw &&& u16Not constants.kColor
      = f &&& u16Not constants.kColor)
    ∧ ((FinderFlags.set_color ⟨f⟩ c).raw &&& constants.kColor = LabelColor.to_u8 c)
    ∧ ((FinderFlags.set_has_custom_icon ⟨f⟩ b).raw &&& u16Not constants.kHasCustomIcon
      = f &&& u16Not constants.kHasCustomIcon)
    ∧ ((FinderFlags.set_has_custom_icon ⟨f⟩ b).raw &&& constants.kColor
      = f &&& constants.kColor) := by
  have hv : LabelColor.to_u8 c &&& constants.kColor = LabelColor.to_u8 c := by
    rcases c with _ | col
    · decide
    · cases col <;> decide
  have hm : constants.kColor < 65536 := by decide
  have hmi : constants.kHasCustomIcon < 65536 := by decide
  have hd : constants.kHasCustomIcon &&& constants.kColor = 0 := by decide
  refine ⟨?_, ?_, ?_, ?_⟩
  · exact land_lor_mask_off f constants.kColor (LabelColor.to_u8 c) hm hv
  · exact land_lor_mask_on f constants.kColor (LabelColor.to_u8 c) hm hv
  · cases b
    · exact land_not_idem f constants.kHasCustomIcon
    · exact lor_mask_off f constants.kHasCustomIcon hmi
  · cases b
    · exact land_not_disjoint f constants.kHasCustomIcon constants.kColor hm hd
    · exact lor_disjoint f constants.kHasCustomIcon constants.kColor hd

/-- Witness for C5: the frame conditions at a flag value with many bits set
(0xf7f3), setting the color to Blue and the custom-icon bit on. -/
theorem C5_setters_touch_only_their_bits_witness :
    (63475 : Nat) < 65536
    ∧ (((FinderFlags.set_color ⟨63475⟩ (some LabelColor.Blue)).raw
        &&& u16Not constants.kColor = 63475 &&& u16Not constants.kColor)
      ∧ ((FinderFlags.set_color ⟨63475⟩ (some LabelColor.Blue)).raw
        &&& constants.kColor = LabelColor.to_u8 (some LabelColor.Blue))
      ∧ ((FinderFlags.set_has_custom_icon ⟨63475⟩ true).raw
        &&& u16Not constants.kHasCustomIcon = 63475 &&& u16Not constants.kHasCustomIcon)
      ∧ ((FinderFlags.set_has_custom_icon ⟨63475⟩ true).raw
        &&& constants.kColor = 63475 &&& constants.kColor)) :=
  ⟨by decide,
    C5_setters_touch_only_their_bits 63475 (by decide) (some LabelColor.Blue) true⟩

/-- Range of an `i16` value. -/
def I16WF (v : Int) : Prop := -32768 ≤ v ∧ v < 32768

instance (v : Int) : Decidable (I16WF v) := by unfold I16WF; infer_instance

/-- Range of an `i32` value. -/
def I32WF (v : Int) : Prop := -2147483648 ≤ v ∧ v < 2147483648

instance (v : Int) : Decidable (I32WF v) := by unfold I32WF; infer_instance

/-- A 2D point: vertical then horizontal, both `i16`. -/
structure Point where
  v : Int
  h : Int
  deriving DecidableEq, Repr

/-- `Point::read`: two big-endian `i16` reads, in field order. -/
def Point.read (l : List Nat) : Except IOErr (Point × List Nat) :=
  match read_i16 l with
  | .error e => .error e
  | .ok (v, l1) =>
    match read_i16 l1 with
    | .error e => .error e
    | .ok (h, l2) => .ok (⟨v, h⟩, l2)

/-- `Point::write`: two big-endian `i16` writes, in field order. -/
def Point.write (p : Point) : List Nat := write_i16 p.v ++ write_i16 p.h

/-- Default `Point`: both coordinates zero. -/
def Point.default : Point := ⟨0, 0⟩

/-- Well-formedness of a `Point`: both coordinates in `i16` range. -/
def Point.WF (p : Point) : Prop := I16WF p.v ∧ I16WF p.h

instance (p : Point) : Decidable p.WF := by unfold Point.WF; infer_instance

/-- A rectangle: top, left, bottom, right, all `i16`. -/
structure Rect where
  top : Int
  left : Int
  bottom : Int
  right : Int
  deriving DecidableEq, Repr

/-- `Rect::read`: four big-endian `i16` reads, in field order. -/
def Rect.read (l : List Nat) : Except IOErr (Rect × List Nat) :=
  match read_i16 l with
  | .error e => .error e
  | .ok (top, l1) =>
    match read_i16 l1 with
    | .error e => .error e
    | .ok (left, l2) =>
      match read_i16 l2 with
      | .error e => .error e
      | .ok (bottom, l3) =>
        match read_i16 l3 with
        | .error e => .error e
        | .ok (right, l4) => .ok (⟨top, left, bottom, right⟩, l4)

/-- `Rect::write`: four big-endian `i16` writes, in field order. -/
def Rect.write (r : Rect) : List Nat :=
  write_i16 r.top ++ write_i16 r.left ++ write_i16 r.bottom ++ write_i16 r.right

/-- Default `Rect`: all four coordinates zero. -/
def Rect.default : Rect := ⟨0, 0, 0, 0⟩

/-- Well-formedness of a `Rect`: all four coordinates in `i16` range. -/
def Rect.WF (r : Rect) : Prop :=
  I16WF r.top ∧ I16WF r.left ∧ I16WF r.bottom ∧ I16WF r.right

instance (r : Rect) : Decidable r.WF := by unfold Rect.WF; infer_instance

/-- `FileInfo`: type code, creator code, Finder flags, icon location, reserved. -/
structure FileInfo where
  fileType : OSType
  fileCreator : OSType
  finderFlags : FinderFlags
  location : Point
  reservedField : Nat
  deriving DecidableEq, Repr

/-- `FileInfo::read`: two 4-byte tag reads (via the short-read-tolerant
`Read::read`, see `readOSType`), then flags, location and reserved field. -/
def FileInfo.read (l : List Nat) : Except IOErr (FileInfo × List Nat) :=
  let ft := (readOSType l).1
  let l1 := (readOSType l).2
  let fc := (readOSType l1).1
  let l2 := (readOSType l1).2
  match read_u16 l2 with
  | .error e => .error e
  | .ok (ff, l3) =>
    match Point.read l3 with
    | .error e => .error e
    | .ok (loc, l4) =>
      match read_u16 l4 with
      | .error e => .error e
      | .ok (rf, l5) => .ok (⟨⟨ft⟩, ⟨fc⟩, ⟨ff⟩, loc, rf⟩, l5)

/-- `FileInfo::write`: field encodes in declaration order. -/
def FileInfo.write (fi : FileInfo) : List Nat :=
  fi.fileType.write ++ fi.fileCreator.write ++ write_u16 fi.finderFlags.toU16
    ++ fi.location.write ++ write_u16 fi.reservedField

/-- Default `FileInfo`: every field zero. -/
def FileInfo.default : FileInfo :=
  ⟨OSType.default, OSType.default, ⟨0⟩, Point.default, 0⟩

/-- Well-formedness of a `FileInfo`: every field within its machine range. -/
def FileInfo.WF (fi : FileInfo) : Prop :=
  fi.fileType.WF ∧ fi.fileCreator.WF ∧ fi.finderFlags.raw < 65536
    ∧ fi.location.WF ∧ fi.reservedField < 65536

instance (fi : FileInfo) : Decidable fi.WF := by unfold FileInfo.WF; infer_instance

/-- `ExtendedFileInfo`: four reserved `i16`s, extended flags, reserved `i16`,
put-away folder id. -/
structure ExtendedFileInfo where
  reserved1 : List Int
  extendedFinderFlags : ExtendedFinderFlags
  reserved2 : Int
  putAwayFolderID : Int
  deriving DecidableEq, Repr

/-- `ExtendedFileInfo::read`: `read_i16_into` on the 4-element reserved array,
then flags, reserved and put-away folder id. -/
def ExtendedFileInfo.read (l : List Nat) : Except IOErr (ExtendedFileInfo × List Nat) :=
  match read_i16_into4 l with
  | .error e => .error e
  | .ok (r1, l1) =>
    match read_u16 l1 with
    | .error e => .error e
    | .ok (eff, l2) =>
      match read_i16 l2 with
      | .error e => .error e
      | .ok (r2, l3) =>
        match read_i32 l3 with
        | .error e => .error e
        | .ok (paf, l4) => .ok (⟨r1, ⟨eff⟩, r2, paf⟩, l4)

/-- `ExtendedFileInfo::write`: field encodes in declaration order (the
reserved array element-wise). -/
def ExtendedFileInfo.write (e : ExtendedFileInfo) : List Nat :=
  (e.reserved1.map write_i16).flatten ++ write_u16 e.extendedFinderFlags.toU16
    ++ write_i16 e.reserved2 ++ write_i32 e.putAwayFolderID

/-- Default `ExtendedFileInfo`: every field zero. -/
def ExtendedFileInfo.default : ExtendedFileInfo := ⟨[0, 0, 0, 0], ⟨0⟩, 0, 0⟩

/-- Well-formedness of an `ExtendedFileInfo`: fields within machine ranges,
reserved array of length 4. -/
def ExtendedFileInfo.WF (e : ExtendedFileInfo) : Prop :=
  e.reserved1.length = 4 ∧ (∀ x ∈ e.reserved1, I16WF x)
    ∧ e.extendedFinderFlags.raw < 65536 ∧ I16WF e.reserved2 ∧ I32WF e.putAwayFolderID

instance (e : ExtendedFileInfo) : Decidable e.WF := by
  unfold ExtendedFileInfo.WF; infer_instance

/-- The 32-byte file record: `FileInfo` then `ExtendedFileInfo`. -/
structure FinderInfoFile where
  file_info : FileInfo
  extended_file_info : ExtendedFileInfo
  deriving DecidableEq, Repr

/-- `FinderInfoFile::read`: the two constituent reads in order. -/
def FinderInfoFile.read (l : List Nat) : Except IOErr (FinderInfoFile × List Nat) :=
  match FileInfo.read l with
  | .error e => .error e
  | .ok (fi, l1) =>
    match ExtendedFileInfo.read l1 with
    | .error e => .error e
    | .ok (efi, l2) => .ok (⟨fi, efi⟩, l2)

/-- `FinderInfoFile::write`: the two constituent writes in order. -/
def FinderInfoFile.write (r : FinderInfoFile) : List Nat :=
  r.file_info.write ++ r.extended_file_info.write

/-- Default `FinderInfoFile`: every field zero. -/
def FinderInfoFile.default : FinderInfoFile :=
  ⟨FileInfo.default, ExtendedFileInfo.default⟩

/-- Well-formedness of a `FinderInfoFile`. -/
def FinderInfoFile.WF (r : FinderInfoFile) : Prop :=
  r.file_info.WF ∧ r.extended_file_info.WF

instance (r : FinderInfoFile) : Decidable r.WF := by
  unfold FinderInfoFile.WF; infer_instance

/-- `FolderInfo`: window bounds, Finder flags, location, reserved. -/
structure FolderInfo where
  windowBounds : Rect
  finderFlags : FinderFlags
  location : Point
  reservedField : Nat
  deriving DecidableEq, Repr

/-- `FolderInfo::read`: bounds, flags, location, reserved, in order. -/
def FolderInfo.read (l : List Nat) : Except IOErr (FolderInfo × List Nat) :=
  match Rect.read l with
  | .error e => .error e
  | .ok (wb, l1) =>
    match read_u16 l1 with
    | .error e => .error e
    | .ok (ff, l2) =>
      match Point.read l2 with
      | .error e => .error e
      | .ok (loc, l3) =>
        match read_u16 l3 with
        | .error e => .error e
        | .ok (rf, l4) => .ok (⟨wb, ⟨ff⟩, loc, rf⟩, l4)

/-- `FolderInfo::write`: field encodes in declaration order. -/
def FolderInfo.write (fi : FolderInfo) : List Nat :=
  fi.windowBounds.write ++ write_u16 fi.finderFlags.toU16
    ++ fi.location.write ++ write_u16 fi.reservedField

/-- Default `FolderInfo`: every field zero. -/
def FolderInfo.default : FolderInfo := ⟨Rect.default, ⟨0⟩, Point.default, 0⟩

/-- Well-formedness of a `FolderInfo`. -/
def FolderInfo.WF (fi : FolderInfo) : Prop :=
  fi.windowBounds.WF ∧ fi.finderFlags.raw < 65536
    ∧ fi.location.WF ∧ fi.reservedField < 65536

instance (fi : FolderInfo) : Decidable fi.WF := by unfold FolderInfo.WF; infer_instance

/-- `ExtendedFolderInfo`: scroll position, reserved `i32`, extended flags,
reserved `i16`, put-away folder id. -/
structure ExtendedFolderInfo where
  scrollPosition : Point
  reserved1 : Int
  extendedFinderFlags : ExtendedFinderFlags
  reserved2 : Int
  putAwayFolderID : Int
  deriving DecidableEq, Repr

/-- `ExtendedFolderInfo::read`: field decodes in declaration order. -/
def ExtendedFolderInfo.read (l : List Nat) :
    Except IOErr (ExtendedFolderInfo × List Nat) :=
  match Point.read l with
  | .error e => .error e
  | .ok (sp, l1) =>
    match read_i32 l1 with
    | .error e => .error e
    | .ok (r1, l2) =>
      match read_u16 l2 with
      | .error e => .error e
      | .ok (eff, l3) =>
        match read_i16 l3 with
        | .error e => .error e
        | .ok (r2, l4) =>
          match read_i32 l4 with
          | .error e => .error e
          | .ok (paf, l5) => .ok (⟨sp, r1, ⟨eff⟩, r2, paf⟩, l5)

/-- `ExtendedFolderInfo::write`: field encodes in declaration order. -/
def ExtendedFolderInfo.write (e : ExtendedFolderInfo) : List Nat :=
  e.scrollPosition.write ++ write_i32 e.reserved1
    ++ write_u16 e.extendedFinderFlags.toU16 ++ write_i16 e.reserved2
    ++ write_i32 e.putAwayFolderID

/-- Default `ExtendedFolderInfo`: every field zero. -/
def ExtendedFolderInfo.default : ExtendedFolderInfo := ⟨Point.default, 0, ⟨0⟩, 0, 0⟩

/-- Well-formedness of an `ExtendedFolderInfo`. -/
def ExtendedFolderInfo.WF (e : ExtendedFolderInfo) : Prop :=
  e.scrollPosition.WF ∧ I32WF e.reserved1
    ∧ e.extendedFinderFlags.raw < 65536 ∧ I16WF e.reserved2 ∧ I32WF e.putAwayFolderID

instance (e : ExtendedFolderInfo) : Decidable e.WF := by
  unfold ExtendedFolderInfo.WF; infer_instance

/-- The 32-byte folder record: `FolderInfo` then `ExtendedFolderInfo`. -/
structure FinderInfoFolder where
  folder_info : FolderInfo
  extended_folder_info : ExtendedFolderInfo
  deriving DecidableEq, Repr

/-- `FinderInfoFolder::read`: the two constituent reads in order. -/
def FinderInfoFolder.read (l : List Nat) :
    Except IOErr (FinderInfoFolder × List Nat) :=
  match FolderInfo.read l with
  | .error e => .error e
  | .ok (fi, l1) =>
    match ExtendedFolderInfo.read l1 with
    | .error e => .error e
    | .ok (efi, l2) => .ok (⟨fi, efi⟩, l2)

/-- `FinderInfoFolder::write`: the two constituent writes in order. -/
def FinderInfoFolder.write (r : FinderInfoFolder) : List Nat :=
  r.folder_info.write ++ r.extended_folder_info.write

/-- Default `FinderInfoFolder`: every field zero. -/
def FinderInfoFolder.default : FinderInfoFolder :=
  ⟨FolderInfo.default, ExtendedFolderInfo.default⟩

/-- Well-formedness of a `FinderInfoFolder`. -/
def FinderInfoFolder.WF (r : FinderInfoFolder) : Prop :=
  r.folder_info.WF ∧ r.extended_folder_info.WF

instance (r : FinderInfoFolder) : Decidable r.WF := by
  unfold FinderInfoFolder.WF; infer_instance

/-- C9: the default-constructed file and folder records (every field zero)
encode to exactly 32 zero bytes; decoding 32 zero bytes as a file record
yields exactly the default record (so `has_custom_icon` is false and `color`
is none), whose re-encoding is again the 32 zero bytes. -/
theorem C9_default_zero :
    FinderInfoFile.default.write = List.replicate 32 0
    ∧ FinderInfoFolder.default.write = List.replicate 32 0
    ∧ FinderInfoFile.read (List.replicate 32 0) = .ok (FinderInfoFile.default, [])
    ∧ FinderInfoFile.default.file_info.finderFlags.has_custom_icon = false
    ∧ FinderInfoFile.default.file_info.finderFlags.color = none :=
  ⟨rfl, rfl, rfl, rfl, rfl⟩

/-- Re-encoding the big-endian `u16` decoded from two bytes gives back the bytes. -/
lemma u16_rt (a b : Nat) (ha : a < 256) (hb : b < 256) :
    write_u16 (a * 256 + b) = [a, b] := by
  have h1 : (a * 256 + b) / 256 % 256 = a := by omega
  have h2 : (a * 256 + b) % 256 = b := by omega
  rw [write_u16, h1, h2]

/-- Re-encoding the big-endian `i16` decoded from two bytes gives back the bytes. -/
lemma i16_rt (a b : Nat) (ha : a < 256) (hb : b < 256) :
    write_i16 (toI16 (a * 256 + b)) = [a, b] := by
  have key : ((toI16 (a * 256 + b)) % 65536).toNat = a * 256 + b := by
    unfold toI16; split <;> omega
  have h1 : (a * 256 + b) / 256 = a := by omega
  have h2 : (a * 256 + b) % 256 = b := by omega
  rw [write_i16, key, h1, h2]

/-- Re-encoding the big-endian `i32` decoded from four bytes gives back the bytes. -/
lemma i32_rt (a b c d : Nat) (ha : a < 256) (hb : b < 256) (hc : c < 256)
    (hd : d < 256) :
    write_i32 (toI32 (((a * 256 + b) * 256 + c) * 256 + d)) = [a, b, c, d] := by
  have key : ((toI32 (((a * 256 + b) * 256 + c) * 256 + d)) % 4294967296).toNat
      = ((a * 256 + b) * 256 + c) * 256 + d := by
    unfold toI32; split <;> omega
  have h1 : (((a * 256 + b) * 256 + c) * 256 + d) / 16777216 % 256 = a := by omega
  have h2 : (((a * 256 + b) * 256 + c) * 256 + d) / 65536 % 256 = b := by omega
  have h3 : (((a * 256 + b) * 256 + c) * 256 + d) / 256 % 256 = c := by omega
  have h4 : (((a * 256 + b) * 256 + c) * 256 + d) % 256 = d := by omega
  rw [write_i32, key, h1, h2, h3, h4]

/-- A list of length 32 is a literal 32-element list. -/
lemma bytes32_cases (b : List Nat) (h : b.length = 32) :
    ∃ a0 a1 a2 a3 a4 a5 a6 a7 a8 a9 a10 a11 a12 a13 a14 a15 a16 a17 a18 a19
      a20 a21 a22 a23 a24 a25 a26 a27 a28 a29 a30 a31 : Nat,
      b = [a0, a1, a2, a3, a4, a5, a6, a7, a8, a9, a10, a11, a12, a13, a14, a15,
        a16, a17, a18, a19, a20, a21, a22, a23, a24, a25, a26, a27, a28, a29,
        a30, a31] := by
  rcases b with _ | ⟨a0, b⟩
  · simp only [List.length_nil] at h; omega
  rcases b with _ | ⟨a1, b⟩
  · simp only [List.length_cons, List.length_nil] at h; omega
  rcases b with _ | ⟨a2, b⟩
  · simp only [List.length_cons, List.length_nil] at h; omega
  rcases b with _ | ⟨a3, b⟩
  · simp only [List.length_cons, List.length_nil] at h; omega
  rcases b with _ | ⟨a4, b⟩
  · simp only [List.length_cons, List.length_nil] at h; omega
  rcases b with _ | ⟨a5, b⟩
  · simp only [List.length_cons, List.length_nil] at h; omega
  rcases b with _ | ⟨a6, b⟩
  · simp only [List.length_cons, List.length_nil] at h; omega
  rcases b with _ | ⟨a7, b⟩
  · simp only [List.length_cons, List.length_nil] at h; omega
  rcases b with _ | ⟨a8, b⟩
  · simp only [List.length_cons, List.length_nil] at h; omega
  rcases b with _ | ⟨a9, b⟩
  · simp only [List.length_cons, List.length_nil] at h; omega
  rcases b with _ | ⟨a10, b⟩
  · simp only [List.length_cons, List.length_nil] at h; omega
  rcases b with _ | ⟨a11, b⟩
  · simp only [List.length_cons, List.length_nil] at h; omega
  rcases b with _ | ⟨a12, b⟩
  · simp only [List.length_cons, List.length_nil] at h; omega
  rcases b with _ | ⟨a13, b⟩
  · simp only [List.length_cons, List.length_nil] at h; omega
  rcases b with _ | ⟨a14, b⟩
  · simp only [List.length_cons, List.length_nil] at h; omega
  rcases b with _ | ⟨a15, b⟩
  · simp only [List.length_cons, List.length_nil] at h; omega
  rcases b with _ | ⟨a16, b⟩
  · simp only [List.length_cons, List.length_nil] at h; omega
  rcases b with _ | ⟨a17, b⟩
  · simp only [List.length_cons, List.length_nil] at h; omega
  rcases b with _ | ⟨a18, b⟩
  · simp only [List.length_cons, List.length_nil] at h; omega
  rcases b with _ | ⟨a19, b⟩
  · simp only [List.length_cons, List.length_nil] at h; omega
  rcases b with _ | ⟨a20, b⟩
  · simp only [List.length_cons, List.length_nil] at h; omega
  rcases b with _ | ⟨a21, b⟩
  · simp only [List.length_cons, List.length_nil] at h; omega
  rcases b with _ | ⟨a22, b⟩
  · simp only [List.length_cons, List.length_nil] at h; omega
  rcases b with _ | ⟨a23, b⟩
  · simp only [List.length_cons, List.length_nil] at h; omega
  rcases b with _ | ⟨a24, b⟩
  · simp only [List.length_cons, List.length_nil] at h; omega
  rcases b with _ | ⟨a25, b⟩
  · simp only [List.length_cons, List.length_nil] at h; omega
  rcases b with _ | ⟨a26, b⟩
  · simp only [List.length_cons, List.length_nil] at h; omega
  rcases b with _ | ⟨a27, b⟩
  · simp only [List.length_cons, List.length_nil] at h; omega
  rcases b with _ | ⟨a28, b⟩
  · simp only [List.length_cons, List.length_nil] at h; omega
  rcases b with _ | ⟨a29, b⟩
  · simp only [List.length_cons, List.length_nil] at h; omega
  rcases b with _ | ⟨a30, b⟩
  · simp only [List.length_cons, List.length_nil] at h; omega
  rcases b with _ | ⟨a31, b⟩
  · simp only [List.length_cons, List.length_nil] at h; omega
  rcases b with _ | ⟨a32, b⟩
  · exact ⟨a0, a1, a2, a3, a4, a5, a6, a7, a8, a9, a10, a11, a12, a13, a14,
      a15, a16, a17, a18, a19, a20, a21, a22, a23, a24, a25, a26, a27, a28,
      a29, a30, a31, rfl⟩
  · simp only [List.length_cons, List.length_nil] at h; omega

/-- Decoding any well-formed 32-byte buffer as a file record succeeds,
consumes the whole buffer, and re-encoding reproduces the buffer. -/
lemma file_read32 (b : List Nat) (h : b.length = 32) (hb : ∀ x ∈ b, x < 256) :
    ∃ r : FinderInfoFile, FinderInfoFile.read b = .ok (r, []) ∧ r.write = b := by
  obtain ⟨a0, a1, a2, a3, a4, a5, a6, a7, a8, a9, a10, a11, a12, a13, a14, a15,
    a16, a17, a18, a19, a20, a21, a22, a23, a24, a25, a26, a27, a28, a29, a30,
    a31, rfl⟩ := bytes32_cases b h
  have h8 : a8 < 256 := hb a8 (by simp)
  have h9 : a9 < 256 := hb a9 (by simp)
  have h10 : a10 < 256 := hb a10 (by simp)
  have h11 : a11 < 256 := hb a11 (by simp)
  have h12 : a12 < 256 := hb a12 (by simp)
  have h13 : a13 < 256 := hb a13 (by simp)
  have h14 : a14 < 256 := hb a14 (by simp)
  have h15 : a15 < 256 := hb a15 (by simp)
  have h16 : a16 < 256 := hb a16 (by simp)
  have h17 : a17 < 256 := hb a17 (by simp)
  have h18 : a18 < 256 := hb a18 (by simp)
  have h19 : a19 < 256 := hb a19 (by simp)
  have h20 : a20 < 256 := hb a20 (by simp)
  have h21 : a21 < 256 := hb a21 (by simp)
  have h22 : a22 < 256 := hb a22 (by simp)
  have h23 : a23 < 256 := hb a23 (by simp)
  have h24 : a24 < 256 := hb a24 (by simp)
  have h25 : a25 < 256 := hb a25 (by simp)
  have h26 : a26 < 256 := hb a26 (by simp)
  have h27 : a27 < 256 := hb a27 (by simp)
  have h28 : a28 < 256 := hb a28 (by simp)
  have h29 : a29 < 256 := hb a29 (by simp)
  have h30 : a30 < 256 := hb a30 (by simp)
  have h31 : a31 < 256 := hb a31 (by simp)
  refine ⟨⟨⟨⟨[a0, a1, a2, a3]⟩, ⟨[a4, a5, a6, a7]⟩, ⟨a8 * 256 + a9⟩,
    ⟨toI16 (a10 * 256 + a11), toI16 (a12 * 256 + a13)⟩, a14 * 256 + a15⟩,
    ⟨[toI16 (a16 * 256 + a17), toI16 (a18 * 256 + a19), toI16 (a20 * 256 + a21),
      toI16 (a22 * 256 + a23)], ⟨a24 * 256 + a25⟩, toI16 (a26 * 256 + a27),
      toI32 (((a28 * 256 + a29) * 256 + a30) * 256 + a31)⟩⟩, rfl, ?_⟩
  simp only [FinderInfoFile.write, FileInfo.write, ExtendedFileInfo.write,
    OSType.write, Point.write, FinderFlags.toU16, ExtendedFinderFlags.toU16,
    List.map_cons, List.map_nil, List.flatten]
  rw [u16_rt a8 a9 h8 h9, i16_rt a10 a11 h10 h11, i16_rt a12 a13 h12 h13,
    u16_rt a14 a15 h14 h15, i16_rt a16 a17 h16 h17, i16_rt a18 a19 h18 h19,
    i16_rt a20 a21 h20 h21, i16_rt a22 a23 h22 h23, u16_rt a24 a25 h24 h25,
    i16_rt a26 a27 h26 h27, i32_rt a28 a29 a30 a31 h28 h29 h30 h31]
  rfl

/-- Decoding any well-formed 32-byte buffer as a folder record succeeds,
consumes the whole buffer, and re-encoding reproduces the buffer. -/
lemma folder_read32 (b : List Nat) (h : b.length = 32) (hb : ∀ x ∈ b, x < 256) :
    ∃ r : FinderInfoFolder, FinderInfoFolder.read b = .ok (r, []) ∧ r.write = b := by
  obtain ⟨a0, a1, a2, a3, a4, a5, a6, a7, a8, a9, a10, a11, a12, a13, a14, a15,
    a16, a17, a18, a19, a20, a21, a22, a23, a24, a25, a26, a27, a28, a29, a30,
    a31, rfl⟩ := bytes32_cases b h
  have h0 : a0 < 256 := hb a0 (by simp)
  have h1 : a1 < 256 := hb a1 (by simp)
  have h2 : a2 < 256 := hb a2 (by simp)
  have h3 : a3 < 256 := hb a3 (by simp)
  have h4 : a4 < 256 := hb a4 (by simp)
  have h5 : a5 < 256 := hb a5 (by simp)
  have h6 : a6 < 256 := hb a6 (by simp)
  have h7 : a7 < 256 := hb a7 (by simp)
  have h8 : a8 < 256 := hb a8 (by simp)
  have h9 : a9 < 256 := hb a9 (by simp)
  have h10 : a10 < 256 := hb a10 (by simp)
  have h11 : a11 < 256 := hb a11 (by simp)
  have h12 : a12 < 256 := hb a12 (by simp)
  have h13 : a13 < 256 := hb a13 (by simp)
  have h14 : a14 < 256 := hb a14 (by simp)
  have h15 : a15 < 256 := hb a15 (by simp)
  have h16 : a16 < 256 := hb a16 (by simp)
  have h17 : a17 < 256 := hb a17 (by simp)
  have h18 : a18 < 256 := hb a18 (by simp)
  have h19 : a19 < 256 := hb a19 (by simp)
  have h20 : a20 < 256 := hb a20 (by simp)
  have h21 : a21 < 256 := hb a21 (by simp)
  have h22 : a22 < 256 := hb a22 (by simp)
  have h23 : a23 < 256 := hb a23 (by simp)
  have h24 : a24 < 256 := hb a24 (by simp)
  have h25 : a25 < 256 := hb a25 (by simp)
  have h26 : a26 < 256 := hb a26 (by simp)
  have h27 : a27 < 256 := hb a27 (by simp)
  have h28 : a28 < 256 := hb a28 (by simp)
  have h29 : a29 < 256 := hb a29 (by simp)
  have h30 : a30 < 256 := hb a30 (by simp)
  have h31 : a31 < 256 := hb a31 (by simp)
  refine ⟨⟨⟨⟨toI16 (a0 * 256 + a1), toI16 (a2 * 256 + a3), toI16 (a4 * 256 + a5),
    toI16 (a6 * 256 + a7)⟩, ⟨a8 * 256 + a9⟩,
    ⟨toI16 (a10 * 256 + a11), toI16 (a12 * 256 + a13)⟩, a14 * 256 + a15⟩,
    ⟨⟨toI16 (a16 * 256 + a17), toI16 (a18 * 256 + a19)⟩,
      toI32 (((a20 * 256 + a21) * 256 + a22) * 256 + a23), ⟨a24 * 256 + a25⟩,
      toI16 (a26 * 256 + a27),
      toI32 (((a28 * 256 + a29) * 256 + a30) * 256 + a31)⟩⟩, rfl, ?_⟩
  simp only [FinderInfoFolder.write, FolderInfo.write, ExtendedFolderInfo.write,
    Rect.write, Point.write, FinderFlags.toU16, ExtendedFinderFlags.toU16]
  rw [i16_rt a0 a1 h0 h1, i16_rt a2 a3 h2 h3, i16_rt a4 a5 h4 h5,
    i16_rt a6 a7 h6 h7, u16_rt a8 a9 h8 h9, i16_rt a10 a11 h10 h11,
    i16_rt a12 a13 h12 h13, u16_rt a14 a15 h14 h15, i16_rt a16 a17 h16 h17,
    i16_rt a18 a19 h18 h19, i32_rt a20 a21 a22 a23 h20 h21 h22 h23,
    u16_rt a24 a25 h24 h25, i16_rt a26 a27 h26 h27,
    i32_rt a28 a29 a30 a31 h28 h29 h30 h31]
  rfl

/-- C1: for every 32-byte buffer (bytes below 256), decoding as a file record
and re-encoding reproduces exactly the input bytes, and likewise for a folder
record — reserved fields included, since every field is preserved verbatim. -/
theorem C1_decode_then_encode_identity (b : List Nat) (h : b.length = 32)
    (hb : ∀ x ∈ b, x < 256) :
    (FinderInfoFile.read b).map (fun p => p.1.write) = .ok b
    ∧ (FinderInfoFolder.read b).map (fun p => p.1.write) = .ok b := by
  obtain ⟨r, hr, hw⟩ := file_read32 b h hb
  obtain ⟨r2, hr2, hw2⟩ := folder_read32 b h hb
  rw [hr, hr2]
  simp [Except.map, hw, hw2]

/-- Witness for C1: the byte-level round trip at the buffer 0, 1, ..., 31. -/
theorem C1_decode_then_encode_identity_witness :
    (List.range 32).length = 32 ∧ (∀ x ∈ List.range 32, x < 256)
    ∧ (FinderInfoFile.read (List.range 32)).map (fun p => p.1.write)
        = .ok (List.range 32)
    ∧ (FinderInfoFolder.read (List.range 32)).map (fun p => p.1.write)
        = .ok (List.range 32) :=
  ⟨by decide, by decide,
    (C1_decode_then_encode_identity (List.range 32) (by decide) (by decide)).1,
    (C1_decode_then_encode_identity (List.range 32) (by decide) (by decide)).2⟩

/-- C4: every 32-byte buffer, whatever its bit pattern, decodes successfully
both as a file record and as a folder record. -/
theorem C4_full_size_always_decodes (b : List Nat) (h : b.length = 32)
    (hb : ∀ x ∈ b, x < 256) :
    (FinderInfoFile.read b).isOk = true ∧ (FinderInfoFolder.read b).isOk = true := by
  obtain ⟨r, hr, -⟩ := file_read32 b h hb
  obtain ⟨r2, hr2, -⟩ := folder_read32 b h hb
  rw [hr, hr2]
  exact ⟨rfl, rfl⟩

/-- Witness for C4: the all-0xff buffer decodes as both record kinds. -/
theorem C4_full_size_always_decodes_witness :
    (List.replicate 32 255).length = 32 ∧ (∀ x ∈ List.replicate 32 255, x < 256)
    ∧ (FinderInfoFile.read (List.replicate 32 255)).isOk = true
    ∧ (FinderInfoFolder.read (List.replicate 32 255)).isOk = true :=
  ⟨by decide, by decide,
    (C4_full_size_always_decodes (List.replicate 32 255) (by decide) (by decide)).1,
    (C4_full_size_always_decodes (List.replicate 32 255) (by decide) (by decide)).2⟩

/-- A successful `read_u16` consumes exactly two bytes. -/
lemma read_u16_ok_len {l : List Nat} {v : Nat} {r : List Nat}
    (h : read_u16 l = .ok (v, r)) : l.length = r.length + 2 := by
  rcases l with _ | ⟨a, l⟩
  · exact Except.noConfusion h
  rcases l with _ | ⟨b, l⟩
  · exact Except.noConfusion h
  injection h with h'
  have h2 : l = r := congrArg Prod.snd h'
  subst h2
  simp only [List.length_cons]

/-- A successful `read_i16` consumes exactly two bytes. -/
lemma read_i16_ok_len {l : List Nat} {v : Int} {r : List Nat}
    (h : read_i16 l = .ok (v, r)) : l.length = r.length + 2 := by
  rcases l with _ | ⟨a, l⟩
  · exact Except.noConfusion h
  rcases l with _ | ⟨b, l⟩
  · exact Except.noConfusion h
  injection h with h'
  have h2 : l = r := congrArg Prod.snd h'
  subst h2
  simp only [List.length_cons]

/-- A successful `read_i32` consumes exactly four bytes. -/
lemma read_i32_ok_len {l : List Nat} {v : Int} {r : List Nat}
    (h : read_i32 l = .ok (v, r)) : l.length = r.length + 4 := by
  rcases l with _ | ⟨a, l⟩
  · exact Except.noConfusion h
  rcases l with _ | ⟨b, l⟩
  · exact Except.noConfusion h
  rcases l with _ | ⟨c, l⟩
  · exact Except.noConfusion h
  rcases l with _ | ⟨d, l⟩
  · exact Except.noConfusion h
  injection h with h'
  have h2 : l = r := congrArg Prod.snd h'
  subst h2
  simp only [List.length_cons]

/-- A successful `read_i16_into` on a 4-element buffer consumes exactly
eight bytes. -/
lemma read_i16_into4_ok_len {l : List Nat} {v : List Int} {r : List Nat}
    (h : read_i16_into4 l = .ok (v, r)) : l.length = r.length + 8 := by
  rcases l with _ | ⟨a, l⟩
  · exact Except.noConfusion h
  rcases l with _ | ⟨b, l⟩
  · exact Except.noConfusion h
  rcases l with _ | ⟨c, l⟩
  · exact Except.noConfusion h
  rcases l with _ | ⟨d, l⟩
  · exact Except.noConfusion h
  rcases l with _ | ⟨e, l⟩
  · exact Except.noConfusion h
  rcases l with _ | ⟨f, l⟩
  · exact Except.noConfusion h
  rcases l with _ | ⟨g, l⟩
  · exact Except.noConfusion h
  rcases l with _ | ⟨k, l⟩
  · exact Except.noConfusion h
  injection h with h'
  have h2 : l = r := congrArg Prod.snd h'
  subst h2
  simp only [List.length_cons]

/-- A successful `Point::read` consumes exactly four bytes. -/
lemma Point_read_ok_len {l : List Nat} {p : Point × List Nat}
    (h : Point.read l = .ok p) : l.length = p.2.length + 4 := by
  simp only [Point.read] at h
  split at h
  · exact Except.noConfusion h
  rename_i v l1 heq1
  split at h
  · exact Except.noConfusion h
  rename_i hh l2 heq2
  injection h with h'
  have e1 := read_i16_ok_len heq1
  have e2 := read_i16_ok_len heq2
  have hp : p.2 = l2 := (congrArg Prod.snd h').symm
  rw [hp]
  omega

/-- A successful `Rect::read` consumes exactly eight bytes. -/
lemma Rect_read_ok_len {l : List Nat} {p : Rect × List Nat}
    (h : Rect.read l = .ok p) : l.length = p.2.length + 8 := by
  simp only [Rect.read] at h
  split at h
  · exact Except.noConfusion h
  rename_i t l1 heq1
  split at h
  · exact Except.noConfusion h
  rename_i lf l2 heq2
  split at h
  · exact Except.noConfusion h
  rename_i bt l3 heq3
  split at h
  · exact Except.noConfusion h
  rename_i rt l4 heq4
  injection h with h'
  have e1 := read_i16_ok_len heq1
  have e2 := read_i16_ok_len heq2
  have e3 := read_i16_ok_len heq3
  have e4 := read_i16_ok_len heq4
  have hp : p.2 = l4 := (congrArg Prod.snd h').symm
  rw [hp]
  omega

/-- Consuming a 4-byte tag via `readOSType` leaves `length - 4` bytes. -/
lemma readOSType_len (l : List Nat) : ((readOSType l).2).length = l.length - 4 := by
  simp [readOSType]

/-- A successful `FileInfo::read` consumes exactly 16 bytes (the two tag
reads always drop up to four bytes each; the exact reads supply the rest). -/
lemma FileInfo_read_ok_len {l : List Nat} {p : FileInfo × List Nat}
    (h : FileInfo.read l = .ok p) : l.length = p.2.length + 16 := by
  simp only [FileInfo.read] at h
  split at h
  · exact Except.noConfusion h
  rename_i ff l3 heq1
  split at h
  · exact Except.noConfusion h
  rename_i loc l4 heq2
  split at h
  · exact Except.noConfusion h
  rename_i rf l5 heq3
  injection h with h'
  have e1 := read_u16_ok_len heq1
  have e2 := Point_read_ok_len heq2
  have e3 := read_u16_ok_len heq3
  have e4 := readOSType_len l
  have e5 := readOSType_len (readOSType l).2
  have hp : p.2 = l5 := (congrArg Prod.snd h').symm
  rw [hp]
  simp only [Prod.snd] at e2
  omega

/-- A successful `ExtendedFileInfo::read` consumes exactly 16 bytes. -/
lemma ExtendedFileInfo_read_ok_len {l : List Nat} {p : ExtendedFileInfo × List Nat}
    (h : ExtendedFileInfo.read l = .ok p) : l.length = p.2.length + 16 := by
  simp only [ExtendedFileInfo.read] at h
  split at h
  · exact Except.noConfusion h
  rename_i r1 l1 heq1
  split at h
  · exact Except.noConfusion h
  rename_i eff l2 heq2
  split at h
  · exact Except.noConfusion h
  rename_i r2 l3 heq3
  split at h
  · exact Except.noConfusion h
  rename_i paf l4 heq4
  injection h with h'
  have e1 := read_i16_into4_ok_len heq1
  have e2 := read_u16_ok_len heq2
  have e3 := read_i16_ok_len heq3
  have e4 := read_i32_ok_len heq4
  have hp : p.2 = l4 := (congrArg Prod.snd h').symm
  rw [hp]
  omega

/-- A successful `FolderInfo::read` consumes exactly 16 bytes. -/
lemma FolderInfo_read_ok_len {l : List Nat} {p : FolderInfo × List Nat}
    (h : FolderInfo.read l = .ok p) : l.length = p.2.length + 16 := by
  simp only [FolderInfo.read] at h
  split at h
  · exact Except.noConfusion h
  rename_i wb l1 heq1
  split at h
  · exact Except.noConfusion h
  rename_i ff l2 heq2
  split at h
  · exact Except.noConfusion h
  rename_i loc l3 heq3
  split at h
  · exact Except.noConfusion h
  rename_i rf l4 heq4
  injection h with h'
  have e1 := Rect_read_ok_len heq1
  have e2 := read_u16_ok_len heq2
  have e3 := Point_read_ok_len heq3
  have e4 := read_u16_ok_len heq4
  have hp : p.2 = l4 := (congrArg Prod.snd h').symm
  rw [hp]
  simp only [Prod.snd] at e1 e3
  omega

/-- A successful `ExtendedFolderInfo::read` consumes exactly 16 bytes. -/
lemma ExtendedFolderInfo_read_ok_len {l : List Nat} {p : ExtendedFolderInfo × List Nat}
    (h : ExtendedFolderInfo.read l = .ok p) : l.length = p.2.length + 16 := by
  simp only [ExtendedFolderInfo.read] at h
  split at h
  · exact Except.noConfusion h
  rename_i sp l1 heq1
  split at h
  · exact Except.noConfusion h
  rename_i r1 l2 heq2
  split at h
  · exact Except.noConfusion h
  rename_i eff l3 heq3
  split at h
  · exact Except.noConfusion h
  rename_i r2 l4 heq4
  split at h
  · exact Except.noConfusion h
  rename_i paf l5 heq5
  injection h with h'
  have e1 := Point_read_ok_len heq1
  have e2 := read_i32_ok_len heq2
  have e3 := read_u16_ok_len heq3
  have e4 := read_i16_ok_len heq4
  have e5 := read_i32_ok_len heq5
  have hp : p.2 = l5 := (congrArg Prod.snd h').symm
  rw [hp]
  simp only [Prod.snd] at e1
  omega

/-- A successful `FinderInfoFile::read` consumes exactly 32 bytes. -/
lemma FinderInfoFile_read_ok_len {l : List Nat} {p : FinderInfoFile × List Nat}
    (h : FinderInfoFile.read l = .ok p) : l.length = p.2.length + 32 := by
  simp only [FinderInfoFile.read] at h
  split at h
  · exact Except.noConfusion h
  rename_i fi l1 heq1
  split at h
  · exact Except.noConfusion h
  rename_i efi l2 heq2
  injection h with h'
  have e1 := FileInfo_read_ok_len heq1
  have e2 := ExtendedFileInfo_read_ok_len heq2
  have hp : p.2 = l2 := (congrArg Prod.snd h').symm
  rw [hp]
  simp only [Prod.snd] at e1 e2
  omega

/-- A successful `FinderInfoFolder::read` consumes exactly 32 bytes. -/
lemma FinderInfoFolder_read_ok_len {l : List Nat} {p : FinderInfoFolder × List Nat}
    (h : FinderInfoFolder.read l = .ok p) : l.length = p.2.length + 32 := by
  simp only [FinderInfoFolder.read] at h
  split at h
  · exact Except.noConfusion h
  rename_i fi l1 heq1
  split at h
  · exact Except.noConfusion h
  rename_i efi l2 heq2
  injection h with h'
  have e1 := FolderInfo_read_ok_len heq1
  have e2 := ExtendedFolderInfo_read_ok_len heq2
  have hp : p.2 = l2 := (congrArg Prod.snd h').symm
  rw [hp]
  simp only [Prod.snd] at e1 e2
  omega

/-- C3: decoding any buffer of fewer than 32 bytes fails with
`TruncatedInput`, for both record kinds — no partial record is ever
returned. -/
theorem C3_short_input_truncated (b : List Nat) (h : b.length < 32) :
    FinderInfoFile.read b = .error .truncatedInput
    ∧ FinderInfoFolder.read b = .error .truncatedInput := by
  constructor
  · cases hr : FinderInfoFile.read b with
    | ok p =>
      have := FinderInfoFile_read_ok_len hr
      omega
    | error e => cases e; rfl
  · cases hr : FinderInfoFolder.read b with
    | ok p =>
      have := FinderInfoFolder_read_ok_len hr
      omega
    | error e => cases e; rfl

/-- Witness for C3: the 31-byte all-zero buffer fails to decode as either
record kind. -/
theorem C3_short_input_truncated_witness :
    (List.replicate 31 0).length < 32
    ∧ FinderInfoFile.read (List.replicate 31 0) = .error .truncatedInput
    ∧ FinderInfoFolder.read (List.replicate 31 0) = .error .truncatedInput :=
  ⟨by decide,
    (C3_short_input_truncated (List.replicate 31 0) (by decide)).1,
    (C3_short_input_truncated (List.replicate 31 0) (by decide)).2⟩

/-- A list of length 4 is a literal 4-element list. -/
lemma list4_cases {α : Type} (l : List α) (h : l.length = 4) :
    ∃ x0 x1 x2 x3, l = [x0, x1, x2, x3] := by
  rcases l with _ | ⟨x0, l⟩
  · simp only [List.length_nil] at h; omega
  rcases l with _ | ⟨x1, l⟩
  · simp only [List.length_cons, List.length_nil] at h; omega
  rcases l with _ | ⟨x2, l⟩
  · simp only [List.length_cons, List.length_nil] at h; omega
  rcases l with _ | ⟨x3, l⟩
  · simp only [List.length_cons, List.length_nil] at h; omega
  rcases l with _ | ⟨x4, l⟩
  · exact ⟨x0, x1, x2, x3, rfl⟩
  · simp only [List.length_cons, List.length_nil] at h; omega

/-- Decoding the big-endian encoding of an in-range `u16` value gives it back. -/
lemma u16_vr (v : Nat) (h : v < 65536) : (v / 256 % 256) * 256 + v % 256 = v := by
  omega

/-- Decoding the big-endian encoding of an in-range `i16` value gives it back. -/
lemma i16_vr (v : Int) (h1 : -32768 ≤ v) (h2 : v < 32768) :
    toI16 (((v % 65536).toNat / 256) * 256 + (v % 65536).toNat % 256) = v := by
  have key : ((v % 65536).toNat / 256) * 256 + (v % 65536).toNat % 256
      = (v % 65536).toNat := by omega
  rw [key]
  unfold toI16
  split <;> omega

/-- Decoding the big-endian encoding of an in-range `i32` value gives it back. -/
lemma i32_vr (v : Int) (h1 : -2147483648 ≤ v) (h2 : v < 2147483648) :
    toI32 (((((v % 4294967296).toNat / 16777216 % 256) * 256
            + (v % 4294967296).toNat / 65536 % 256) * 256
          + (v % 4294967296).toNat / 256 % 256) * 256
        + (v % 4294967296).toNat % 256) = v := by
  have key : ((((v % 4294967296).toNat / 16777216 % 256) * 256
            + (v % 4294967296).toNat / 65536 % 256) * 256
          + (v % 4294967296).toNat / 256 % 256) * 256
        + (v % 4294967296).toNat % 256 = (v % 4294967296).toNat := by omega
  rw [key]
  unfold toI32
  split <;> omega

/-- C10: encoding any well-formed record (arbitrary field contents, nonzero
reserved fields included) to its 32-byte form and decoding it back with the
matching `read` returns exactly the same record, with the whole buffer
consumed — the converse direction of the byte-level round-trip law. -/
theorem C10_encode_then_decode_identity (rf : FinderInfoFile)
    (rd : FinderInfoFolder) (hwf1 : rf.WF) (hwf2 : rd.WF) :
    FinderInfoFile.read rf.write = .ok (rf, [])
    ∧ FinderInfoFolder.read rd.write = .ok (rd, []) := by
  constructor
  · obtain ⟨⟨⟨tb⟩, ⟨cb⟩, ⟨ffr⟩, ⟨lv, lh⟩, rsv⟩, ⟨r1, ⟨effr⟩, r2, paf⟩⟩ := rf
    simp only [FinderInfoFile.WF, FileInfo.WF, ExtendedFileInfo.WF, OSType.WF,
      Point.WF, I16WF, I32WF] at hwf1
    obtain ⟨⟨⟨htl, htb⟩, ⟨hcl, hcb⟩, hff, ⟨⟨hlv1, hlv2⟩, ⟨hlh1, hlh2⟩⟩, hrsv⟩,
      ⟨hr1l, hr1e, heff, ⟨hr21, hr22⟩, ⟨hpaf1, hpaf2⟩⟩⟩ := hwf1
    obtain ⟨x0, x1, x2, x3, rfl⟩ := list4_cases tb htl
    obtain ⟨y0, y1, y2, y3, rfl⟩ := list4_cases cb hcl
    obtain ⟨z0, z1, z2, z3, rfl⟩ := list4_cases r1 hr1l
    have hz0 := hr1e z0 (by simp)
    have hz1 := hr1e z1 (by simp)
    have hz2 := hr1e z2 (by simp)
    have hz3 := hr1e z3 (by simp)
    have hstep : FinderInfoFile.read (FinderInfoFile.write
        ⟨⟨⟨[x0, x1, x2, x3]⟩, ⟨[y0, y1, y2, y3]⟩, ⟨ffr⟩, ⟨lv, lh⟩, rsv⟩,
          ⟨[z0, z1, z2, z3], ⟨effr⟩, r2, paf⟩⟩)
        = .ok (⟨⟨⟨[x0, x1, x2, x3]⟩, ⟨[y0, y1, y2, y3]⟩,
          ⟨(ffr / 256 % 256) * 256 + ffr % 256⟩,
          ⟨toI16 (((lv % 65536).toNat / 256) * 256 + (lv % 65536).toNat % 256),
            toI16 (((lh % 65536).toNat / 256) * 256 + (lh % 65536).toNat % 256)⟩,
          (rsv / 256 % 256) * 256 + rsv % 256⟩,
          ⟨[toI16 (((z0 % 65536).toNat / 256) * 256 + (z0 % 65536).toNat % 256),
            toI16 (((z1 % 65536).toNat / 256) * 256 + (z1 % 65536).toNat % 256),
            toI16 (((z2 % 65536).toNat / 256) * 256 + (z2 % 65536).toNat % 256),
            toI16 (((z3 % 65536).toNat / 256) * 256 + (z3 % 65536).toNat % 256)],
          ⟨(effr / 256 % 256) * 256 + effr % 256⟩,
          toI16 (((r2 % 65536).toNat / 256) * 256 + (r2 % 65536).toNat % 256),
          toI32 (((((paf % 4294967296).toNat / 16777216 % 256) * 256
              + (paf % 4294967296).toNat / 65536 % 256) * 256
            + (paf % 4294967296).toNat / 256 % 256) * 256
          + (paf % 4294967296).toNat % 256)⟩⟩, []) := rfl
    rw [hstep, u16_vr ffr hff, i16_vr lv hlv1 hlv2, i16_vr lh hlh1 hlh2,
      u16_vr rsv hrsv, i16_vr z0 hz0.1 hz0.2, i16_vr z1 hz1.1 hz1.2,
      i16_vr z2 hz2.1 hz2.2, i16_vr z3 hz3.1 hz3.2, u16_vr effr heff,
      i16_vr r2 hr21 hr22, i32_vr paf hpaf1 hpaf2]
  · obtain ⟨⟨⟨wt, wl, wbt, wrt⟩, ⟨gfr⟩, ⟨mv, mh⟩, msv⟩,
      ⟨⟨sv, sh⟩, ri1, ⟨gefr⟩, ri2, paf2⟩⟩ := rd
    simp only [FinderInfoFolder.WF, FolderInfo.WF, ExtendedFolderInfo.WF,
      Rect.WF, Point.WF, I16WF, I32WF] at hwf2
    obtain ⟨⟨⟨⟨hwt1, hwt2⟩, ⟨hwl1, hwl2⟩, ⟨hwb1, hwb2⟩, ⟨hwr1, hwr2⟩⟩, hgf,
      ⟨⟨hmv1, hmv2⟩, ⟨hmh1, hmh2⟩⟩, hmsv⟩,
      ⟨⟨⟨hsv1, hsv2⟩, ⟨hsh1, hsh2⟩⟩, ⟨hri11, hri12⟩, hgef, ⟨hri21, hri22⟩,
      ⟨hp21, hp22⟩⟩⟩ := hwf2
    have hstep : FinderInfoFolder.read (FinderInfoFolder.write
        ⟨⟨⟨wt, wl, wbt, wrt⟩, ⟨gfr⟩, ⟨mv, mh⟩, msv⟩,
          ⟨⟨sv, sh⟩, ri1, ⟨gefr⟩, ri2, paf2⟩⟩)
        = .ok (⟨⟨⟨toI16 (((wt % 65536).toNat / 256) * 256 + (wt % 65536).toNat % 256),
            toI16 (((wl % 65536).toNat / 256) * 256 + (wl % 65536).toNat % 256),
            toI16 (((wbt % 65536).toNat / 256) * 256 + (wbt % 65536).toNat % 256),
            toI16 (((wrt % 65536).toNat / 256) * 256 + (wrt % 65536).toNat % 256)⟩,
          ⟨(gfr / 256 % 256) * 256 + gfr % 256⟩,
          ⟨toI16 (((mv % 65536).toNat / 256) * 256 + (mv % 65536).toNat % 256),
            toI16 (((mh % 65536).toNat / 256) * 256 + (mh % 65536).toNat % 256)⟩,
          (msv / 256 % 256) * 256 + msv % 256⟩,
          ⟨⟨toI16 (((sv % 65536).toNat / 256) * 256 + (sv % 65536).toNat % 256),
            toI16 (((sh % 65536).toNat / 256) * 256 + (sh % 65536).toNat % 256)⟩,
          toI32 (((((ri1 % 4294967296).toNat / 16777216 % 256) * 256
              + (ri1 % 4294967296).toNat / 65536 % 256) * 256
            + (ri1 % 4294967296).toNat / 256 % 256) * 256
          + (ri1 % 4294967296).toNat % 256),
          ⟨(gefr / 256 % 256) * 256 + gefr % 256⟩,
          toI16 (((ri2 % 65536).toNat / 256) * 256 + (ri2 % 65536).toNat % 256),
          toI32 (((((paf2 % 4294967296).toNat / 16777216 % 256) * 256
              + (paf2 % 4294967296).toNat / 65536 % 256) * 256
            + (paf2 % 4294967296).toNat / 256 % 256) * 256
          + (paf2 % 4294967296).toNat % 256)⟩⟩, []) := rfl
    rw [hstep, i16_vr wt hwt1 hwt2, i16_vr wl hwl1 hwl2, i16_vr wbt hwb1 hwb2,
      i16_vr wrt hwr1 hwr2, u16_vr gfr hgf, i16_vr mv hmv1 hmv2,
      i16_vr mh hmh1 hmh2, u16_vr msv hmsv, i16_vr sv hsv1 hsv2,
      i16_vr sh hsh1 hsh2, i32_vr ri1 hri11 hri12, u16_vr gefr hgef,
      i16_vr ri2 hri21 hri22, i32_vr paf2 hp21 hp22]

/-- Witness for C10: the encode-then-decode identity at the all-zero default
records. -/
theorem C10_encode_then_decode_identity_witness :
    FinderInfoFile.default.WF ∧ FinderInfoFolder.default.WF
    ∧ FinderInfoFile.read FinderInfoFile.default.write
        = .ok (FinderInfoFile.default, [])
    ∧ FinderInfoFolder.read FinderInfoFolder.default.write
        = .ok (FinderInfoFolder.default, []) :=
  ⟨by decide, by decide,
    (C10_encode_then_decode_identity FinderInfoFile.default
      FinderInfoFolder.default (by decide) (by decide)).1,
    (C10_encode_then_decode_identity FinderInfoFile.default
      FinderInfoFolder.default (by decide) (by decide)).2⟩


/-- The `FinderFlags` rendering as the spec words it: the color name if a
color is present, then each set boolean flag by its own name, in the fixed
declaration order. -/
def FinderFlags.specFlagNames (f : FinderFlags) : List String :=
  (match f.color with
  | some color => [LabelColor.to_str color]
  | none => []) ++
  (if f.is_shared then ["kIsShared"] else []) ++
  (if f.has_no_inits then ["kHasNoINITs"] else []) ++
  (if f.has_been_inited then ["kHasBeenInited"] else []) ++
  (if f.has_custom_icon then ["kHasCustomIcon"] else []) ++
  (if f.is_stationery then ["kIsStationery"] else []) ++
  (if f.name_locked then ["kNameLocked"] else []) ++
  (if f.has_bundle then ["kHasBundle"] else []) ++
  (if f.is_invisible then ["kIsInvisible"] else []) ++
  (if f.is_alias then ["kIsAlias"] else [])

/-- The `ExtendedFinderFlags` rendering as the spec words it: each set flag
by its own name, in declaration order. -/
def ExtendedFinderFlags.specFlagNames (f : ExtendedFinderFlags) : List String :=
  (if f.are_invalid then ["kExtendedFlagsAreInvalid"] else []) ++
  (if f.has_custom_badge then ["kExtendedFlagHasCustomBadge"] else []) ++
  (if f.has_routing_info then ["kExtendedFlagHasRoutingInfo"] else [])

/-- Counterexample for C8, at the concrete flag value 0x0004 (only the
routing-info bit set): the source's Debug rendering lists the flag under the
badge flag's name, not under its own name "kExtendedFlagHasRoutingInfo" as
the claim requires (and as the spec-worded rendering produces). -/
theorem C8_routing_name_counterexample :
    ExtendedFinderFlags.debugFlagNames ⟨4⟩ = ["kExtendedFlagHasCustomBadge"]
    ∧ ¬ ExtendedFinderFlags.debugFlagNames ⟨4⟩ = ["kExtendedFlagHasRoutingInfo"]
    ∧ ExtendedFinderFlags.specFlagNames ⟨4⟩ = ["kExtendedFlagHasRoutingInfo"] :=
  ⟨rfl, by decide, rfl⟩

/-- C8 as amended: for every flag value, the `FinderFlags` rendering lists
exactly the active named flags — the color name if present, then each set
boolean flag by its own name — in the fixed declaration order; the
`ExtendedFinderFlags` rendering does the same except that the routing-info
bit, when set, is listed under the string "kExtendedFlagHasCustomBadge"
(the badge flag's name) instead of its own name. -/
theorem C8_debug_names_follow_spec_except_routing (x : Nat) :
    FinderFlags.debugFlagNames ⟨x⟩ = FinderFlags.specFlagNames ⟨x⟩
    ∧ ExtendedFinderFlags.debugFlagNames ⟨x⟩
        = (ExtendedFinderFlags.specFlagNames ⟨x⟩).map
            (fun s => if s = "kExtendedFlagHasRoutingInfo"
              then "kExtendedFlagHasCustomBadge" else s) := by
  constructor
  · rfl
  · cases h1 : ExtendedFinderFlags.are_invalid ⟨x⟩ <;>
      cases h2 : ExtendedFinderFlags.has_custom_badge ⟨x⟩ <;>
      cases h3 : ExtendedFinderFlags.has_routing_info ⟨x⟩ <;>
      simp [ExtendedFinderFlags.debugFlagNames,
        ExtendedFinderFlags.specFlagNames, h1, h2, h3]
